import Mathlib

/-!
Shallow embedding of the MonetIQ savings-goals engine
(`MonetIQ/goals/savings_goals.py`).

Numbers are modelled as exact rationals, Python `round(x, n)` as
round-half-to-even of `x * 10^n`, and Python `int(x)` as truncation
toward zero.  A Python `datetime` is modelled by its calendar year and
month together with its absolute position on the time line in days; the
engine only uses year/month differences, chronological comparison,
day-count differences and adding a number of days, all of which this
representation supports.  ISO date strings are modelled as already
parsed (`datetime.fromisoformat` round-trips `isoformat` exactly).
Functions that can raise a Python exception (`ZeroDivisionError` from
an unguarded division) return `Option`, with `none` marking the raise.
Human-readable message strings keep their fixed wording but elide the
interpolated numbers; the elided numbers are carried by the surrounding
numeric fields and never influence control flow.
-/

namespace MonetIQ

/-- Round half to even, Python's rounding mode for `round`. -/
def roundHalfEven (x : ℚ) : ℤ :=
  let f := x.floor
  let frac := x - f
  if frac < 1/2 then f
  else if 1/2 < frac then f + 1
  else if f % 2 = 0 then f else f + 1

/-- Python `round(x, 2)`. -/
def pyRound2 (x : ℚ) : ℚ := (roundHalfEven (x * 100) : ℚ) / 100

/-- Python `round(x, 1)`. -/
def pyRound1 (x : ℚ) : ℚ := (roundHalfEven (x * 10) : ℚ) / 10

/-- Python `int(x)`: truncation toward zero. -/
def pyInt (x : ℚ) : ℤ := x.num.tdiv x.den

/-- Python `a / b`, where `none` models a raised `ZeroDivisionError`. -/
def pyDiv (a b : ℚ) : Option ℚ := if b = 0 then none else some (a / b)

/-- Python for-loops that may raise: sequence an option-valued function
over a list, propagating the first `none` (the raised exception). -/
def optionTraverse {α β : Type} (f : α → Option β) : List α → Option (List β)
  | [] => some []
  | a :: l => do
    let b ← f a
    let bs ← optionTraverse f l
    pure (b :: bs)

/-- A Python `datetime`: calendar year and month (used by the engine in
month-difference arithmetic) plus the absolute time-line position in
days (used in chronological comparison, `timedelta` addition and
`.days` differences). -/
structure DateTime where
  year : ℤ
  month : ℤ
  absDay : ℚ
deriving DecidableEq

/-- `(a.year - b.year) * 12 + (a.month - b.month)`, the month-difference
expression the source repeats at lines 286, 294, 296 and 521. -/
def monthsDiff (a b : DateTime) : ℤ :=
  (a.year - b.year) * 12 + (a.month - b.month)

/-- Python `(a - b).days` on datetimes: `timedelta.days` floors. -/
def daysDiff (a b : ℚ) : ℤ := (a - b).floor

/-- `SavingsGoal` dataclass (source lines 56-76), dates pre-parsed. -/
structure SavingsGoal where
  goal_id : String
  name : String
  goal_type : String
  target_amount : ℚ
  current_amount : ℚ
  target_date : Option DateTime
  priority : String
  monthly_contribution : ℚ
  created_date : DateTime
  last_updated : DateTime
  description : Option String
deriving DecidableEq

/-- `GoalProgress` dataclass (source lines 79-90). -/
structure GoalProgress where
  goal_id : String
  completion_percentage : ℚ
  time_elapsed_percentage : ℚ
  expected_progress : ℚ
  actual_progress : ℚ
  variance : ℚ
  on_track : Bool
  months_elapsed : ℤ
  months_remaining : Option ℤ
deriving DecidableEq

/-- Income signal as shaped by `get_income` (source lines 142-163).
Fields the engine never reads (`income_sources`, `income_stability`,
`last_3_months`) are omitted. -/
structure IncomeData where
  monthly_income : ℚ
deriving DecidableEq

/-- Expense signal as shaped by `get_expenses` (source lines 165-187).
Fields the engine never reads are omitted. -/
structure ExpenseData where
  monthly_total : ℚ
deriving DecidableEq

/-- Overspending signal as shaped by `get_overspending_data` (source
lines 220-241).  The unread `trend` field is omitted. -/
structure OverspendingData where
  is_overspending : Bool
  overspending_amount : ℚ
  affected_categories : List String
  severity : String
deriving DecidableEq

/-- Stress signal as shaped by `get_stress_index` (source lines
243-263).  The unread `stress_factors` field is omitted. -/
structure StressData where
  stress_score : ℚ
  stress_level : String
  is_stressed : Bool
deriving DecidableEq

/-- A value handed to Python's `float(...)`: either a number (or
numeric string) that coerces, or a value on which `float` raises. -/
inductive PyNum
  | num (q : ℚ)
  | bad
deriving DecidableEq

/-- `float(info.get(key, 0))`: a missing key defaults to `0`, a present
coercible value converts, a present non-coercible value raises. -/
def floatOfField : Option PyNum → Option ℚ
  | none => some 0
  | some (.num q) => some q
  | some .bad => none

/-- One raw record of the `savings_goals` state dict consumed by
`get_savings_goals` (source lines 196-213): every field optional,
numeric fields as raw `float(...)` inputs, dates pre-parsed. -/
structure RawGoalInfo where
  name : Option String
  type : Option String
  target_amount : Option PyNum
  current_amount : Option PyNum
  target_date : Option DateTime
  priority : Option String
  monthly_contribution : Option PyNum
  created_date : Option DateTime
  last_updated : Option DateTime
  description : Option String
deriving DecidableEq

/-- The engine's loaded signal snapshot: the `self.state` contents after
the data-access layer (`get_income`, `get_expenses`,
`get_overspending_data`, `get_stress_index`) has applied its
key-defaulting, plus the raw `savings_goals` records. -/
structure Snapshot where
  income : IncomeData
  expenses : ExpenseData
  overspending : OverspendingData
  stress : StressData
  savings_goals : List (String × RawGoalInfo)
deriving DecidableEq

/-- `get_savings_goals` body for one record (source lines 201-213). -/
def buildGoal (now : DateTime) (rec : String × RawGoalInfo) :
    Option (String × SavingsGoal) := do
  let info := rec.2
  let target ← floatOfField info.target_amount
  let current ← floatOfField info.current_amount
  let monthly ← floatOfField info.monthly_contribution
  pure (rec.1,
    { goal_id := rec.1
      name := info.name.getD "Unnamed Goal"
      goal_type := info.type.getD "custom"
      target_amount := target
      current_amount := current
      target_date := info.target_date
      priority := info.priority.getD "medium"
      monthly_contribution := monthly
      created_date := info.created_date.getD now
      last_updated := info.last_updated.getD now
      description := info.description })

/-- `get_savings_goals` (source lines 189-218): builds one `SavingsGoal`
per record; the surrounding `try/except` turns any raised exception
into an empty goal dict. -/
def get_savings_goals (records : List (String × RawGoalInfo))
    (now : DateTime) : List (String × SavingsGoal) :=
  (optionTraverse (buildGoal now) records).getD []

/-- Result dict of `estimate_monthly_savings_capacity` (source lines
363-371). -/
structure CapacityResult where
  base_capacity : ℚ
  conservative : ℚ
  moderate : ℚ
  aggressive : ℚ
  maximum : ℚ
  stress_adjusted : Bool
  overspending_impact : Bool
deriving DecidableEq

/-- Base capacity with the overspending adjustment (source lines
343-348). -/
def base_capacity_of (s : Snapshot) : ℚ :=
  let b := s.income.monthly_income - s.expenses.monthly_total
  if s.overspending.is_overspending then
    b - s.overspending.overspending_amount * (1/2)
  else b

/-- The amount subtracted from `monthly_income - monthly_expenses` by
the overspending branch (half the overspending amount, 0 otherwise). -/
def overspending_adjustment (s : Snapshot) : ℚ :=
  if s.overspending.is_overspending then
    s.overspending.overspending_amount * (1/2)
  else 0

/-- Stress multiplier (source lines 350-355). -/
def stress_multiplier_of (s : Snapshot) : ℚ :=
  if s.stress.is_stressed then
    max (3/5) (1 - s.stress.stress_score / 100 * (2/5))
  else 1

/-- `estimate_monthly_savings_capacity` (source lines 327-371). -/
def estimate_monthly_savings_capacity (s : Snapshot) : CapacityResult :=
  let base := base_capacity_of s
  let mult := stress_multiplier_of s
  { base_capacity := pyRound2 base
    conservative := pyRound2 (max 0 (base * (1/5) * mult))
    moderate := pyRound2 (max 0 (base * (2/5) * mult))
    aggressive := pyRound2 (max 0 (base * (7/10) * mult))
    maximum := pyRound2 (max 0 (base * mult))
    stress_adjusted := decide (mult < 1)
    overspending_impact := s.overspending.is_overspending }

/-- `calculate_goal_progress` (source lines 269-325), with the current
wall-clock instant passed in as `now`. -/
def calculate_goal_progress (g : SavingsGoal) (now : DateTime) :
    GoalProgress :=
  let completion0 : ℚ :=
    if g.target_amount > 0 then g.current_amount / g.target_amount * 100 else 0
  let completion := min completion0 100
  let months_elapsed : ℤ := max 1 (monthsDiff now g.created_date)
  let tmr : ℚ × Option ℤ :=
    match g.target_date with
    | some td =>
        let total_months : ℤ := max 1 (monthsDiff td g.created_date)
        let mr : ℤ := max 0 (monthsDiff td now)
        (if total_months > 0 then
          (months_elapsed : ℚ) / (total_months : ℚ) * 100 else 0, some mr)
    | none => (0, none)
  let time_elapsed_percentage := tmr.1
  let months_remaining := tmr.2
  let expected_progress : ℚ :=
    if g.target_date.isSome then time_elapsed_percentage else 0
  let actual_progress := completion
  let variance := actual_progress - expected_progress
  let on_track : Bool :=
    match g.target_date with
    | some _ => decide (variance ≥ -10)
    | none =>
        decide (g.current_amount ≥
          g.monthly_contribution * (months_elapsed : ℚ) * (9/10))
  { goal_id := g.goal_id
    completion_percentage := pyRound2 completion
    time_elapsed_percentage := pyRound2 time_elapsed_percentage
    expected_progress := pyRound2 expected_progress
    actual_progress := pyRound2 actual_progress
    variance := pyRound2 variance
    on_track := on_track
    months_elapsed := months_elapsed
    months_remaining := months_remaining }

/-- Result dict of `evaluate_goal_feasibility` (source lines 461-471). -/
structure FeasibilityResult where
  is_feasible : Bool
  feasibility_score : ℤ
  required_monthly : ℚ
  available_capacity : ℚ
  capacity_utilization : ℚ
  summary : String
  reasons : List String
  recommendations : List String
deriving DecidableEq

/-- Required monthly savings (source lines 388-396).  The Python guard
`if goal.target_date and progress.months_remaining:` tests truthiness,
so `months_remaining == 0` falls through to the `else` branch. -/
def requiredMonthly (g : SavingsGoal) (progress : GoalProgress)
    (remaining_amount : ℚ) : ℚ :=
  match g.target_date, progress.months_remaining with
  | some _, some mr =>
      if mr ≠ 0 then
        (if mr > 0 then remaining_amount / (mr : ℚ) else remaining_amount)
      else g.monthly_contribution
  | _, _ => g.monthly_contribution

/-- The `required_monthly` value computed inside
`evaluate_goal_feasibility` for a goal at instant `now`. -/
def requiredMonthlyOf (g : SavingsGoal) (now : DateTime) : ℚ :=
  requiredMonthly g (calculate_goal_progress g now)
    (g.target_amount - g.current_amount)

/-- `evaluate_goal_feasibility` (source lines 373-471).  `none` models
the `ZeroDivisionError` raised at line 447 when the Check-5 branch is
entered with `capacity["moderate"] == 0`.  The score, the reason list
and the recommendation list of each sequential check are bound
separately; the branch conditions are exactly those of the source. -/
def evaluate_goal_feasibility (s : Snapshot) (g : SavingsGoal)
    (now : DateTime) : Option FeasibilityResult :=
  let capacity := estimate_monthly_savings_capacity s
  let progress := calculate_goal_progress g now
  let remaining_amount := g.target_amount - g.current_amount
  let required_monthly := requiredMonthly g progress remaining_amount
  -- Check 1: required vs available capacity (lines 404-418);
  -- `is_feasible` is cleared only here and in Check 5
  let is_feasible1 : Bool :=
    if required_monthly > capacity.maximum then false else true
  let score1 : ℤ :=
    if required_monthly > capacity.maximum then 100 - 50
    else if required_monthly > capacity.aggressive then 100 - 20
    else if required_monthly > capacity.moderate then 100 - 10
    else 100
  let reasons1 : List String :=
    if required_monthly > capacity.maximum then
      ["Required monthly savings exceeds maximum capacity"]
    else if required_monthly > capacity.aggressive then
      ["Goal requires aggressive savings"]
    else if required_monthly > capacity.moderate then
      ["Goal requires above-moderate savings commitment"]
    else []
  let recs1 : List String :=
    if required_monthly > capacity.maximum then
      ["Consider extending target date or reducing goal amount"]
    else if required_monthly > capacity.aggressive then
      ["This goal is achievable but requires significant financial discipline"]
    else []
  -- Check 2: stress impact (lines 421-424)
  let score2 := if s.stress.is_stressed then score1 - 15 else score1
  let reasons2 := reasons1 ++
    (if s.stress.is_stressed then
      ["Current financial stress may impact savings ability"] else [])
  let recs2 := recs1 ++
    (if s.stress.is_stressed then
      ["Focus on stress reduction and expense optimization first"] else [])
  -- Check 3: overspending impact (lines 427-432)
  let score3 :=
    if s.overspending.is_overspending then score2 - 15 else score2
  let reasons3 := reasons2 ++
    (if s.overspending.is_overspending then
      ["Active overspending threatens goal progress"] else [])
  let recs3 := recs2 ++
    (if s.overspending.is_overspending then
      ["Address overspending in discretionary categories before increasing goal contributions"]
    else [])
  -- Check 4: historical performance (lines 435-438)
  let score4 := if progress.variance < -20 then score3 - 20 else score3
  let reasons4 := reasons3 ++
    (if progress.variance < -20 then ["Goal is behind schedule"] else [])
  let recs4 := recs3 ++
    (if progress.variance < -20 then
      ["Review and adjust monthly contribution or extend timeline"] else [])
  -- Check 5: timeline realism (lines 441-447); the recommendation text
  -- divides by `capacity["moderate"]` with no zero guard
  let step5 : Option (Bool × ℤ × List String × List String) :=
    match g.target_date, progress.months_remaining with
    | some _, some mr =>
        if mr < 3 ∧ remaining_amount > capacity.maximum * 3 then
          (pyDiv remaining_amount capacity.moderate).map (fun _ =>
            (false, score4 - 30,
              reasons4 ++ ["Insufficient time remaining to reach goal"],
              recs4 ++ ["Extend deadline"]))
        else some (is_feasible1, score4, reasons4, recs4)
    | _, _ => some (is_feasible1, score4, reasons4, recs4)
  step5.map (fun r =>
    let feasibility_score := max 0 r.2.1
    { is_feasible := r.1
      feasibility_score := feasibility_score
      required_monthly := pyRound2 required_monthly
      available_capacity := capacity.moderate
      capacity_utilization :=
        pyRound2 (if capacity.maximum > 0 then
          required_monthly / capacity.maximum * 100 else 0)
      summary :=
        if feasibility_score ≥ 80 then "Highly feasible - goal is well within reach"
        else if feasibility_score ≥ 60 then "Feasible with discipline - stay focused on contributions"
        else if feasibility_score ≥ 40 then "Challenging but possible - requires optimization"
        else "Unrealistic under current conditions - adjustment needed"
      reasons := r.2.2.1
      recommendations := r.2.2.2 })

/-- `affected_goals` payload of a conflict record: a flat id list, or
the short-term/long-term split used by the temporal conflict. -/
inductive AffectedGoals
  | ids (goals : List String)
  | grouped (short_term long_term : List String)
deriving DecidableEq

/-- One conflict record produced by `detect_goal_conflicts` (source
lines 492-555).  The numeric interpolations of `description`/`impact`
are elided; `feasibility_score` is present only on lifestyle
conflicts. -/
structure Conflict where
  type : String
  severity : String
  description : String
  affected_goals : AffectedGoals
  feasibility_score : Option ℤ
  recommendation : String
deriving DecidableEq

/-- `detect_goal_conflicts` (source lines 473-557); `none` models an
exception propagating out of a per-goal feasibility evaluation in the
Conflict-4 loop. -/
def detect_goal_conflicts (s : Snapshot)
    (goals : List (String × SavingsGoal)) (now : DateTime) :
    Option (List Conflict) :=
  if goals.isEmpty then some [] else
  let capacity := estimate_monthly_savings_capacity s
  let total_required := (goals.map (fun p => p.2.monthly_contribution)).sum
  -- Conflict 1: total requirements exceed capacity (lines 490-499)
  let c1 : List Conflict :=
    if total_required > capacity.maximum then
      [{ type := "capacity_overload"
         severity := "high"
         description := "All goals together require more than the maximum monthly capacity"
         affected_goals := .ids (goals.map Prod.fst)
         feasibility_score := none
         recommendation := "Prioritize goals or extend timelines" }]
    else []
  -- Conflict 2: high-priority goals competing (lines 502-512)
  let high_priority_goals := goals.filter (fun p => p.2.priority = "high")
  let c2 : List Conflict :=
    if high_priority_goals.length > 1 ∧
        (high_priority_goals.map (fun p => p.2.monthly_contribution)).sum >
          capacity.aggressive then
      [{ type := "priority_conflict"
         severity := "medium"
         description := "Multiple high-priority goals competing for monthly savings"
         affected_goals := .ids (high_priority_goals.map Prod.fst)
         feasibility_score := none
         recommendation := "Re-evaluate goal priorities or adjust contribution amounts" }]
    else []
  -- Conflict 3: short-term goals hurting long-term stability
  -- (lines 515-541)
  let dated := goals.filter (fun p => p.2.target_date.isSome)
  let short_term_goals := dated.filter (fun p =>
    (p.2.target_date.map (fun td => monthsDiff td now)).getD 0 ≤ 12)
  let long_term_goals := dated.filter (fun p =>
    ¬ (p.2.target_date.map (fun td => monthsDiff td now)).getD 0 ≤ 12)
  let c3 : List Conflict :=
    if ¬ short_term_goals.isEmpty ∧ ¬ long_term_goals.isEmpty ∧
        (short_term_goals.map (fun p => p.2.monthly_contribution)).sum >
          capacity.moderate then
      [{ type := "temporal_conflict"
         severity := "medium"
         description := "Short-term goal focus may compromise long-term financial stability"
         affected_goals := .grouped (short_term_goals.map Prod.fst)
           (long_term_goals.map Prod.fst)
         feasibility_score := none
         recommendation := "Ensure emergency fund and retirement goals maintain minimum contributions" }]
    else []
  -- Conflict 4: goals impossible under current lifestyle (lines 544-555)
  (optionTraverse (fun p => evaluate_goal_feasibility s p.2 now) goals).map
    (fun feats =>
      let c4 := (goals.zip feats).filterMap (fun q =>
        if q.2.is_feasible then none
        else some
          { type := "lifestyle_conflict"
            severity := "high"
            description := "Goal is unachievable under current spending patterns"
            affected_goals := .ids [q.1.1]
            feasibility_score := some q.2.feasibility_score
            recommendation := q.2.recommendations.headD "Review goal parameters" })
      c1 ++ c2 ++ c3 ++ c4)

/-- `GoalHealth` enum (source lines 37-43). -/
inductive GoalHealth
  | on_track
  | at_risk
  | off_track
  | unrealistic
  | completed
deriving DecidableEq

/-- `assign_goal_health_status` (source lines 563-595).  The feasibility
evaluation runs before the completed check, so its exception can escape
even for completed goals. -/
def assign_goal_health_status (s : Snapshot) (g : SavingsGoal)
    (now : DateTime) : Option (GoalHealth × String) := do
  let progress := calculate_goal_progress g now
  let feasibility ← evaluate_goal_feasibility s g now
  if progress.completion_percentage ≥ 100 then
    pure (.completed, "Goal successfully completed!")
  else if ¬ feasibility.is_feasible ∨ feasibility.feasibility_score < 30 then
    pure (.unrealistic, feasibility.summary)
  else if progress.on_track ∧ progress.variance ≥ -5 then
    if feasibility.feasibility_score ≥ 70 then
      pure (.on_track, "Goal is progressing as planned")
    else
      pure (.at_risk, "On track but capacity concerns exist")
  else if progress.variance ≥ -20 then
    pure (.at_risk, "Goal is behind schedule")
  else
    pure (.off_track, "Goal is significantly behind")

/-- Result dict of `predict_goal_completion` (source lines 775-784).
`predicted_completion_date` is the absolute day of the predicted
datetime, `none` for the Python `None` sentinel. -/
structure PredictionResult where
  goal_id : String
  goal_name : String
  predicted_completion_date : Option ℚ
  months_to_completion : ℚ
  success_probability : ℚ
  predicted_monthly_rate : ℚ
  target_monthly_rate : ℚ
  confidence : String
deriving DecidableEq

/-- `predict_goal_completion` (source lines 721-784). -/
def predict_goal_completion (s : Snapshot) (g : SavingsGoal)
    (now : DateTime) : PredictionResult :=
  let progress := calculate_goal_progress g now
  let remaining := g.target_amount - g.current_amount
  let months_elapsed := progress.months_elapsed
  let actual_monthly_rate : ℚ :=
    if months_elapsed > 0 then g.current_amount / (months_elapsed : ℚ)
    else g.monthly_contribution
  let adj1 : ℚ := if s.overspending.is_overspending then 1 * (17/20) else 1
  let adjustment_factor : ℚ :=
    if s.stress.is_stressed then adj1 * (9/10) else adj1
  let predicted_monthly_rate := actual_monthly_rate * adjustment_factor
  let confidence : String :=
    if months_elapsed ≥ 3 then "high"
    else if months_elapsed ≥ 1 then "medium" else "low"
  if predicted_monthly_rate > 0 then
    let months_to_completion := remaining / predicted_monthly_rate
    let predicted_date : ℚ := now.absDay + months_to_completion * 30
    let probability : ℚ :=
      match g.target_date with
      | some td =>
          if predicted_date ≤ td.absDay then
            min (19/20) (7/10 + progress.variance / 100 * (1/4))
          else
            let delay_days := daysDiff predicted_date td.absDay
            max (1/10) (7/10 - (delay_days : ℚ) / 365 * (3/10))
      | none => if progress.variance ≥ -10 then 4/5 else 3/5
    { goal_id := g.goal_id
      goal_name := g.name
      predicted_completion_date := some predicted_date
      months_to_completion := pyRound1 months_to_completion
      success_probability := pyRound2 probability
      predicted_monthly_rate := pyRound2 predicted_monthly_rate
      target_monthly_rate := g.monthly_contribution
      confidence := confidence }
  else
    { goal_id := g.goal_id
      goal_name := g.name
      predicted_completion_date := none
      months_to_completion := pyRound1 999
      success_probability := pyRound2 (1/10)
      predicted_monthly_rate := pyRound2 predicted_monthly_rate
      target_monthly_rate := g.monthly_contribution
      confidence := confidence }

/-- Result dict of `estimate_goal_delay` (source lines 798-804). -/
structure DelayInfo where
  goal_id : String
  has_delay : Bool
  delay_months : ℚ
  delay_reasons : List String
  risk_level : String
deriving DecidableEq

/-- `estimate_goal_delay` (source lines 786-851); `none` models an
exception escaping the feasibility call at line 847. -/
def estimate_goal_delay (s : Snapshot) (g : SavingsGoal)
    (now : DateTime) : Option DelayInfo :=
  let prediction := predict_goal_completion s g now
  match g.target_date with
  | none =>
      some { goal_id := g.goal_id, has_delay := false, delay_months := 0
             delay_reasons := [], risk_level := "low" }
  | some td =>
      match prediction.predicted_completion_date with
      | none =>
          some { goal_id := g.goal_id, has_delay := true
                 delay_months := 999
                 delay_reasons := ["Goal appears unachievable at current rate"]
                 risk_level := "critical" }
      | some predicted_date =>
          if predicted_date > td.absDay then
            let delay_days := daysDiff predicted_date td.absDay
            let delay_months : ℚ := (delay_days : ℚ) / 30
            let risk_level : String :=
              if delay_months > 6 then "high"
              else if delay_months > 3 then "medium" else "low"
            let progress := calculate_goal_progress g now
            let r1 : List String :=
              if progress.variance < -15 then ["Significantly behind schedule"] else []
            let r2 := r1 ++
              (if s.overspending.is_overspending then
                ["Overspending reducing available savings"] else [])
            let r3 := r2 ++
              (if s.stress.is_stressed then
                ["Financial stress impacting contributions"] else [])
            (evaluate_goal_feasibility s g now).map (fun feasibility =>
              let r4 := r3 ++
                (if feasibility.capacity_utilization > 80 then
                  ["Limited savings capacity"] else [])
              { goal_id := g.goal_id, has_delay := true
                delay_months := pyRound1 delay_months
                delay_reasons := r4, risk_level := risk_level })
          else
            some { goal_id := g.goal_id, has_delay := false
                   delay_months := 0, delay_reasons := [], risk_level := "low" }

/-- One `frozen_goals` entry of `adjust_goals_using_stress`. -/
structure FrozenGoal where
  goal_id : String
  goal_name : String
  reason : String
deriving DecidableEq

/-- One `reduced_contributions` entry of `adjust_goals_using_stress`. -/
structure ReducedContribution where
  goal_id : String
  goal_name : String
  current_contribution : ℚ
  recommended_contribution : ℚ
  reason : String
deriving DecidableEq

/-- Result dict of `adjust_goals_using_stress` (source lines 605-611). -/
structure AdjustResult where
  stress_detected : Bool
  stress_level : String
  recommendations : List String
  frozen_goals : List FrozenGoal
  reduced_contributions : List ReducedContribution
deriving DecidableEq

/-- `adjust_goals_using_stress` (source lines 597-652). -/
def adjust_goals_using_stress (s : Snapshot)
    (goals : List (String × SavingsGoal)) : AdjustResult :=
  let base : AdjustResult :=
    { stress_detected := s.stress.is_stressed
      stress_level := s.stress.stress_level
      recommendations := [], frozen_goals := [], reduced_contributions := [] }
  if ¬ s.stress.is_stressed then
    { base with recommendations :=
        ["No stress detected - maintain current goal strategy"] }
  else if s.stress.stress_score > 70 then
    { base with
      frozen_goals := (goals.filter (fun p => p.2.priority = "low")).map
        (fun p =>
          { goal_id := p.2.goal_id, goal_name := p.2.name
            reason := "Low priority goal frozen due to high financial stress" })
      recommendations :=
        ["Focus only on essential goals (emergency fund, critical deadlines)",
         "Temporarily pause low-priority goals until stress reduces"] }
  else if s.stress.stress_score > 40 then
    { base with
      reduced_contributions :=
        (goals.filter (fun p =>
          p.2.priority = "low" ∨ p.2.priority = "medium")).map
        (fun p =>
          { goal_id := p.2.goal_id, goal_name := p.2.name
            current_contribution := p.2.monthly_contribution
            recommended_contribution :=
              pyRound2 (p.2.monthly_contribution * (1/2))
            reason := "Reduced contribution due to moderate financial stress" })
      recommendations :=
        ["Consider reducing non-essential goal contributions by 30-50%",
         "Prioritize financial stability and stress reduction"] }
  else
    { base with recommendations :=
        ["Monitor stress levels and adjust goals if stress increases"] }

/-- One `estimated_delay` entry of `integrate_overspending_impact`. -/
structure DelayEntry where
  goal_name : String
  delay_months : ℤ
  impact_severity : String
deriving DecidableEq

/-- Result dict of `integrate_overspending_impact` (source lines
663-669). -/
structure ImpactResult where
  overspending_detected : Bool
  severity : String
  affected_goals : List String
  estimated_delay : List (String × DelayEntry)
  recovery_actions : List String
deriving DecidableEq

/-- `integrate_overspending_impact` (source lines 654-715). -/
def integrate_overspending_impact (s : Snapshot)
    (goals : List (String × SavingsGoal)) : ImpactResult :=
  let base : ImpactResult :=
    { overspending_detected := s.overspending.is_overspending
      severity := s.overspending.severity
      affected_goals := [], estimated_delay := [], recovery_actions := [] }
  if ¬ s.overspending.is_overspending then base
  else
    let overspending_amount := s.overspending.overspending_amount
    let affected_categories := s.overspending.affected_categories
    let perGoal := goals.filterMap (fun p =>
      let g := p.2
      let remaining := g.target_amount - g.current_amount
      if g.monthly_contribution > 0 then
        let reduced_contribution :=
          max 0 (g.monthly_contribution - overspending_amount * (3/10))
        let delay_months : ℤ :=
          if reduced_contribution > 0 then
            pyInt (remaining / reduced_contribution -
              remaining / g.monthly_contribution)
          else 999
        some (g.goal_id,
          ({ goal_name := g.name
             delay_months := delay_months
             impact_severity :=
               if delay_months > 6 then "high"
               else if delay_months > 3 then "medium" else "low" } : DelayEntry))
      else none)
    let recovery1 : List String :=
      if ¬ affected_categories.isEmpty then
        ["Reduce spending in the most affected categories"] else []
    let recovery2 := recovery1 ++
      ["Reclaim the overspent amount each month to restore goal timelines"]
    let recovery3 := recovery2 ++
      (if s.overspending.severity = "high" then
        ["Critical: Review and freeze non-essential subscriptions and expenses"]
      else [])
    { base with
      affected_goals := perGoal.map Prod.fst
      estimated_delay := perGoal
      recovery_actions := recovery3 }

/-- One insight record (source lines 857-982), numeric interpolations
of `message`/`action` elided. -/
structure Insight where
  type : String
  priority : String
  goal_id : Option String
  title : String
  message : String
  action : String
deriving DecidableEq

/-- `generate_savings_insights` (source lines 857-982); `none` models an
exception escaping a per-goal feasibility evaluation or the conflict
detection. -/
def generate_savings_insights (s : Snapshot)
    (goals : List (String × SavingsGoal)) (now : DateTime) :
    Option (List Insight) :=
  if goals.isEmpty then
    some [{ type := "no_goals", priority := "high", goal_id := none
            title := "No Savings Goals Set"
            message := "Start building your financial future by creating your first savings goal"
            action := "Create a goal" }]
  else
  let capacity := estimate_monthly_savings_capacity s
  -- Insight 1: capacity utilization (lines 878-896)
  let total_contributions :=
    (goals.map (fun p => p.2.monthly_contribution)).sum
  let utilization : ℚ :=
    if capacity.maximum > 0 then
      total_contributions / capacity.maximum * 100 else 0
  let i1 : List Insight :=
    if utilization < 50 then
      [{ type := "underutilized_capacity", priority := "medium"
         goal_id := none
         title := "Opportunity to Save More"
         message := "You are using only part of your savings capacity"
         action := "Consider increasing goal contributions or adding new goals" }]
    else if utilization > 90 then
      [{ type := "overutilized_capacity", priority := "high"
         goal_id := none
         title := "Savings Capacity Strained"
         message := "Your goals require most of your available savings capacity"
         action := "Review goal priorities or extend timelines" }]
    else []
  -- Insight 2: goal-specific insights (lines 899-939); the prediction
  -- computed at line 902 is never read, so it is not recomputed here
  (do
    let i2 ← optionTraverse (fun p => do
      let g := p.2
      let progress := calculate_goal_progress g now
      let feasibility ← evaluate_goal_feasibility s g now
      let a : List Insight :=
        if progress.variance < -20 then
          [{ type := "behind_schedule", priority := "high"
             goal_id := some g.goal_id
             title := g.name ++ ": Behind Schedule"
             message := "You need to save more per month to meet your target date"
             action := "Increase monthly contribution or extend deadline" }]
        else if progress.completion_percentage > 80 ∧
            progress.completion_percentage < 100 then
          [{ type := "near_completion", priority := "low"
             goal_id := some g.goal_id
             title := g.name ++ ": Almost There!"
             message := "Only a small amount remains to reach your goal"
             action := "Stay focused - you are in the home stretch" }]
        else []
      let b : List Insight :=
        if ¬ feasibility.is_feasible then
          [{ type := "unrealistic_goal", priority := "critical"
             goal_id := some g.goal_id
             title := g.name ++ ": Needs Adjustment"
             message := feasibility.summary
             action := feasibility.recommendations.headD
               "Review goal parameters" }]
        else []
      pure (a ++ b)) goals
    -- Insight 3: overspending impact (lines 942-956)
    let overspending_impact := integrate_overspending_impact s goals
    let i3 : List Insight :=
      if overspending_impact.overspending_detected then
        let total_delay : ℤ :=
          (overspending_impact.estimated_delay.map
            (fun e => e.2.delay_months)).sum
        if total_delay > 0 then
          [{ type := "overspending_impact", priority := "high"
             goal_id := none
             title := "Overspending Delaying Goals"
             message := "Current overspending could delay your goals"
             action := overspending_impact.recovery_actions.headD
               "Reduce discretionary spending" }]
        else []
      else []
    -- Insight 4: stress-based recommendations (lines 959-967)
    let stress_adjustments := adjust_goals_using_stress s goals
    let i4 : List Insight :=
      if stress_adjustments.stress_detected ∧
          ¬ stress_adjustments.recommendations.isEmpty then
        [{ type := "stress_warning", priority := "high"
           goal_id := none
           title := "Financial Stress Detected"
           message := stress_adjustments.recommendations.headD ""
           action := "Consider pausing or reducing low-priority goals temporarily" }]
      else []
    -- Insight 5: goal conflicts (lines 970-980)
    let conflicts ← detect_goal_conflicts s goals now
    let high_severity_conflicts :=
      conflicts.filter (fun c => c.severity = "high")
    let i5 : List Insight :=
      if ¬ conflicts.isEmpty ∧ ¬ high_severity_conflicts.isEmpty then
        match high_severity_conflicts.head? with
        | some c =>
            [{ type := "goal_conflict", priority := "critical"
               goal_id := none
               title := "Goal Conflicts Detected"
               message := c.description
               action := c.recommendation }]
        | none => []
      else []
    pure (i1 ++ i2.flatten ++ i3 ++ i4 ++ i5))

/-- String value of a `GoalHealth` (the Python enum `.value`). -/
def GoalHealth.value : GoalHealth → String
  | .on_track => "on_track"
  | .at_risk => "at_risk"
  | .off_track => "off_track"
  | .unrealistic => "unrealistic"
  | .completed => "completed"

/-- The `goal_health_summary` counter dict (source lines 1014-1020). -/
structure HealthSummary where
  on_track : ℕ
  at_risk : ℕ
  off_track : ℕ
  unrealistic : ℕ
  completed : ℕ
deriving DecidableEq

/-- `goal_health_summary[health_status.value] += 1` (source line 1042). -/
def HealthSummary.bump (h : HealthSummary) : GoalHealth → HealthSummary
  | .on_track => { h with on_track := h.on_track + 1 }
  | .at_risk => { h with at_risk := h.at_risk + 1 }
  | .off_track => { h with off_track := h.off_track + 1 }
  | .unrealistic => { h with unrealistic := h.unrealistic + 1 }
  | .completed => { h with completed := h.completed + 1 }

/-- Per-goal analysis block of the report (source lines 1031-1039). -/
structure GoalAnalysis where
  goal_info : SavingsGoal
  progress : GoalProgress
  feasibility : FeasibilityResult
  health_status : GoalHealth
  health_explanation : String
  prediction : PredictionResult
  delay_estimate : DelayInfo
deriving DecidableEq

/-- The `summary` section of the report (source lines 1054-1064). -/
structure ReportSummary where
  total_goals : ℕ
  total_target_amount : ℚ
  total_saved : ℚ
  total_remaining : ℚ
  overall_progress_percentage : ℚ
  health_distribution : HealthSummary
  goals_on_track : ℕ
  goals_needing_attention : ℕ
deriving DecidableEq

/-- The full report dict (source lines 1053-1075); `report_generated`
is the captured `now`. -/
structure Report where
  summary : ReportSummary
  goals : List (String × GoalAnalysis)
  goal_health : HealthSummary
  conflicts : List Conflict
  predictions : List (String × PredictionResult)
  insights : List Insight
  savings_capacity : CapacityResult
  stress_adjustments : AdjustResult
  overspending_impact : ImpactResult
  report_generated : DateTime
  engine_version : String
deriving DecidableEq

/-- `get_savings_goals_report` (source lines 988-1077), as a function
of the loaded state snapshot and the wall-clock instant `now`; `none`
models an exception escaping one of the per-goal analyses. -/
def get_savings_goals_report (s : Snapshot) (now : DateTime) :
    Option Report := do
  let goals := get_savings_goals s.savings_goals now
  let total_goals := goals.length
  let total_target := (goals.map (fun p => p.2.target_amount)).sum
  let total_saved := (goals.map (fun p => p.2.current_amount)).sum
  let total_remaining := total_target - total_saved
  let overall_progress : ℚ :=
    if total_target > 0 then total_saved / total_target * 100 else 0
  let analyses ← optionTraverse (fun p => do
      let g := p.2
      let progress := calculate_goal_progress g now
      let feasibility ← evaluate_goal_feasibility s g now
      let hs ← assign_goal_health_status s g now
      let prediction := predict_goal_completion s g now
      let delay ← estimate_goal_delay s g now
      pure (p.1,
        ({ goal_info := g, progress := progress, feasibility := feasibility
           health_status := hs.1, health_explanation := hs.2
           prediction := prediction, delay_estimate := delay } : GoalAnalysis)))
    goals
  let goal_health_summary := analyses.foldl
    (fun h p => h.bump p.2.health_status)
    { on_track := 0, at_risk := 0, off_track := 0
      unrealistic := 0, completed := 0 }
  let predictions := analyses.map (fun p => (p.1, p.2.prediction))
  let insights ← generate_savings_insights s goals now
  let conflicts ← detect_goal_conflicts s goals now
  let capacity := estimate_monthly_savings_capacity s
  let stress_adjustments := adjust_goals_using_stress s goals
  let overspending_impact := integrate_overspending_impact s goals
  pure
    { summary :=
        { total_goals := total_goals
          total_target_amount := pyRound2 total_target
          total_saved := pyRound2 total_saved
          total_remaining := pyRound2 total_remaining
          overall_progress_percentage := pyRound2 overall_progress
          health_distribution := goal_health_summary
          goals_on_track :=
            goal_health_summary.on_track + goal_health_summary.completed
          goals_needing_attention :=
            goal_health_summary.at_risk + goal_health_summary.off_track +
              goal_health_summary.unrealistic }
      goals := analyses
      goal_health := goal_health_summary
      conflicts := conflicts
      predictions := predictions
      insights := insights
      savings_capacity := capacity
      stress_adjustments := stress_adjustments
      overspending_impact := overspending_impact
      report_generated := now
      engine_version := "1.0.0" }

/-- The per-record contract stated by the spec for the goal store
adapter: one `SavingsGoal` per record, defaulting missing numeric
fields to 0, missing `priority` to `medium`, missing `goal_type` to
`custom`, and missing dates to now.  Written from the spec wording, to
be compared with the source translation `buildGoal`. -/
def goalOfRecordSpec (gid : String) (info : RawGoalInfo)
    (now : DateTime) : SavingsGoal :=
  { goal_id := gid
    name := info.name.getD "Unnamed Goal"
    goal_type := info.type.getD "custom"
    target_amount := (floatOfField info.target_amount).getD 0
    current_amount := (floatOfField info.current_amount).getD 0
    target_date := info.target_date
    priority := info.priority.getD "medium"
    monthly_contribution := (floatOfField info.monthly_contribution).getD 0
    created_date := info.created_date.getD now
    last_updated := info.last_updated.getD now
    description := info.description }

/-- All numeric fields of a raw record coerce under `float(...)`. -/
def numericOk (info : RawGoalInfo) : Prop :=
  (floatOfField info.target_amount).isSome = true ∧
  (floatOfField info.current_amount).isSome = true ∧
  (floatOfField info.monthly_contribution).isSome = true

instance (info : RawGoalInfo) : Decidable (numericOk info) :=
  inferInstanceAs (Decidable (_ ∧ _ ∧ _))

/-! Concrete instances used to instantiate the claims. -/

/-- Overspending signal with no overspending. -/
def quietOverspending : OverspendingData :=
  { is_overspending := false, overspending_amount := 0
    affected_categories := [], severity := "low" }

/-- Stress signal with no stress. -/
def quietStress : StressData :=
  { stress_score := 0, stress_level := "low", is_stressed := false }

/-- Snapshot with monthly income equal to monthly expenses: every
capacity band is zero. -/
def snapC1 : Snapshot :=
  { income := ⟨40000⟩, expenses := ⟨40000⟩
    overspending := quietOverspending, stress := quietStress
    savings_goals := [] }

/-- June 2025 reference instant. -/
def nowC1 : DateTime := ⟨2025, 6, 1000⟩

/-- Goal due in two months with a positive remaining amount. -/
def goalC1 : SavingsGoal :=
  { goal_id := "g1", name := "Emergency fund"
    goal_type := "emergency_fund", target_amount := 10000
    current_amount := 0, target_date := some ⟨2025, 8, 1061⟩
    priority := "medium", monthly_contribution := 0
    created_date := ⟨2025, 1, 850⟩, last_updated := ⟨2025, 1, 850⟩
    description := none }

/-- Zero-capacity snapshot for the conflict-detection counterexample. -/
def snapC2 : Snapshot :=
  { income := ⟨30000⟩, expenses := ⟨30000⟩
    overspending := quietOverspending, stress := quietStress
    savings_goals := [] }

/-- Goal with a positive contribution, due in two months. -/
def goalC2 : SavingsGoal :=
  { goal_id := "g1", name := "Trip", goal_type := "vacation"
    target_amount := 8000, current_amount := 0
    target_date := some ⟨2025, 8, 1061⟩, priority := "medium"
    monthly_contribution := 500
    created_date := ⟨2025, 1, 850⟩, last_updated := ⟨2025, 1, 850⟩
    description := none }

/-- Overcommitted goal set on a zero-capacity snapshot. -/
def goalsC2 : List (String × SavingsGoal) := [("g1", goalC2)]

/-- Snapshot with spare capacity (income 50000, expenses 45000). -/
def snapC2w : Snapshot :=
  { income := ⟨50000⟩, expenses := ⟨45000⟩
    overspending := quietOverspending, stress := quietStress
    savings_goals := [] }

/-- Undated goal contributing 3000 per month. -/
def goalC2wa : SavingsGoal :=
  { goal_id := "g1", name := "Car", goal_type := "custom"
    target_amount := 200000, current_amount := 0, target_date := none
    priority := "medium", monthly_contribution := 3000
    created_date := ⟨2025, 1, 850⟩, last_updated := ⟨2025, 1, 850⟩
    description := none }

/-- Second undated goal contributing 3000 per month. -/
def goalC2wb : SavingsGoal :=
  { goal_id := "g2", name := "House", goal_type := "home_down_payment"
    target_amount := 500000, current_amount := 0, target_date := none
    priority := "medium", monthly_contribution := 3000
    created_date := ⟨2025, 1, 850⟩, last_updated := ⟨2025, 1, 850⟩
    description := none }

/-- Two goals whose contributions sum to 6000 > 5000 maximum. -/
def goalsC2w : List (String × SavingsGoal) :=
  [("g1", goalC2wa), ("g2", goalC2wb)]

/-- The conflict list `detect_goal_conflicts` produces for
`goalsC2w` on `snapC2w`. -/
def conflictsC2w : List Conflict :=
  [{ type := "capacity_overload"
     severity := "high"
     description := "All goals together require more than the maximum monthly capacity"
     affected_goals := .ids ["g1", "g2"]
     feasibility_score := none
     recommendation := "Prioritize goals or extend timelines" }]

/-- The spec scenario snapshot: income 50000, expenses 45000, no
stress, no overspending. -/
def snapC3 : Snapshot :=
  { income := ⟨50000⟩, expenses := ⟨45000⟩
    overspending := quietOverspending, stress := quietStress
    savings_goals := [] }

/-- Snapshot for the due-now dispatch check. -/
def snapC4 : Snapshot :=
  { income := ⟨50000⟩, expenses := ⟨45000⟩
    overspending := quietOverspending, stress := quietStress
    savings_goals := [] }

/-- Goal whose target date falls in the current month
(`months_remaining = 0`), with 5000 still to save and a stated
contribution of 100. -/
def goalC4 : SavingsGoal :=
  { goal_id := "g4", name := "Laptop", goal_type := "gadget"
    target_amount := 6000, current_amount := 1000
    target_date := some ⟨2025, 6, 1010⟩, priority := "medium"
    monthly_contribution := 100
    created_date := ⟨2025, 1, 850⟩, last_updated := ⟨2025, 1, 850⟩
    description := none }

/-- Snapshot for the feasibility-consistency witness. -/
def snapC5 : Snapshot :=
  { income := ⟨50000⟩, expenses := ⟨45000⟩
    overspending := quietOverspending, stress := quietStress
    savings_goals := [] }

/-- Undated goal demanding 6000 per month against a 5000 maximum. -/
def goalC5 : SavingsGoal :=
  { goal_id := "g5", name := "Boat", goal_type := "custom"
    target_amount := 100000, current_amount := 0, target_date := none
    priority := "medium", monthly_contribution := 6000
    created_date := ⟨2025, 1, 850⟩, last_updated := ⟨2025, 1, 850⟩
    description := none }

/-- The feasibility result for `goalC5` on `snapC5`. -/
def feasC5 : FeasibilityResult :=
  { is_feasible := false
    feasibility_score := 50
    required_monthly := 6000
    available_capacity := 2000
    capacity_utilization := 120
    summary := "Challenging but possible - requires optimization"
    reasons := ["Required monthly savings exceeds maximum capacity"]
    recommendations := ["Consider extending target date or reducing goal amount"] }

/-- Goal whose target month is long past: 33 months elapsed against a
2-month plan. -/
def goalC6bad : SavingsGoal :=
  { goal_id := "g6", name := "Phone", goal_type := "gadget"
    target_amount := 1000, current_amount := 0
    target_date := some ⟨2024, 3, 700⟩, priority := "medium"
    monthly_contribution := 50
    created_date := ⟨2024, 1, 640⟩, last_updated := ⟨2024, 1, 640⟩
    description := none }

/-- October 2026 instant, past the target date of `goalC6bad`. -/
def nowC6 : DateTime := ⟨2026, 10, 1490⟩

/-- Goal created January 2025 with a December 2025 deadline. -/
def goalC6w : SavingsGoal :=
  { goal_id := "g6w", name := "Gift", goal_type := "custom"
    target_amount := 1200, current_amount := 500
    target_date := some ⟨2025, 12, 1184⟩, priority := "medium"
    monthly_contribution := 100
    created_date := ⟨2025, 1, 850⟩, last_updated := ⟨2025, 1, 850⟩
    description := none }

/-- Quiet snapshot for the zero-rate prediction witness. -/
def snapC7 : Snapshot :=
  { income := ⟨60000⟩, expenses := ⟨40000⟩
    overspending := quietOverspending, stress := quietStress
    savings_goals := [] }

/-- Goal with no savings after several months: zero historical rate. -/
def goalC7 : SavingsGoal :=
  { goal_id := "g7", name := "Bike", goal_type := "custom"
    target_amount := 50000, current_amount := 0, target_date := none
    priority := "medium", monthly_contribution := 2000
    created_date := ⟨2025, 1, 850⟩, last_updated := ⟨2025, 1, 850⟩
    description := none }

/-- Raw record whose `target_amount` does not coerce under `float`. -/
def recsC8bad : List (String × RawGoalInfo) :=
  [("g1",
    { name := some "Broken", type := some "custom"
      target_amount := some .bad, current_amount := some (.num 10)
      target_date := none, priority := some "high"
      monthly_contribution := some (.num 5)
      created_date := none, last_updated := none, description := none })]

/-- Two well-formed raw records, one with every field missing. -/
def recsC8w : List (String × RawGoalInfo) :=
  [("g1",
    { name := none, type := none, target_amount := none
      current_amount := none, target_date := none, priority := none
      monthly_contribution := none, created_date := none
      last_updated := none, description := none }),
   ("g2",
    { name := some "Trip", type := some "vacation"
      target_amount := some (.num 9000), current_amount := some (.num 450)
      target_date := some ⟨2026, 1, 1215⟩, priority := some "high"
      monthly_contribution := some (.num 750)
      created_date := some ⟨2025, 3, 909⟩
      last_updated := some ⟨2025, 5, 970⟩, description := some "beach" })]

/-- Snapshot with one stored goal record, used for the determinism
witness. -/
def snapC9 : Snapshot :=
  { income := ⟨50000⟩, expenses := ⟨45000⟩
    overspending := quietOverspending, stress := quietStress
    savings_goals :=
      [("g9",
        { name := some "Fund", type := some "emergency_fund"
          target_amount := some (.num 30000)
          current_amount := some (.num 12000)
          target_date := none, priority := some "high"
          monthly_contribution := some (.num 1500)
          created_date := some ⟨2025, 1, 850⟩
          last_updated := some ⟨2025, 5, 970⟩, description := none })] }

/-- Snapshot whose expenses exceed income by only 1/1000: the rounded
`base_capacity` is 0, not strictly negative. -/
def snapC10bad : Snapshot :=
  { income := ⟨100⟩, expenses := ⟨100 + 1/1000⟩
    overspending := quietOverspending, stress := quietStress
    savings_goals := [] }

/-- Snapshot where expenses plus the overspending adjustment exceed
income by 10: the base capacity is -10. -/
def snapC10w : Snapshot :=
  { income := ⟨100⟩, expenses := ⟨90⟩
    overspending :=
      { is_overspending := true, overspending_amount := 40
        affected_categories := ["dining"], severity := "high" }
    stress := quietStress
    savings_goals := [] }

/-! Helper lemmas about the rounding primitives. -/

theorem ratFloor_eq (x : ℚ) : x.floor = ⌊x⌋ := by
  rw [Rat.floor_def', ← Rat.floor_def]

theorem roundHalfEven_eq (x : ℚ) : roundHalfEven x =
    if x - ⌊x⌋ < 1/2 then ⌊x⌋
    else if 1/2 < x - ⌊x⌋ then ⌊x⌋ + 1
    else if ⌊x⌋ % 2 = 0 then ⌊x⌋ else ⌊x⌋ + 1 := by
  rw [roundHalfEven, ratFloor_eq]

theorem roundHalfEven_le {x : ℚ} {c : ℤ} (h : x ≤ (c : ℚ)) :
    roundHalfEven x ≤ c := by
  rw [roundHalfEven_eq]
  have hfc : ⌊x⌋ ≤ c := by
    calc ⌊x⌋ ≤ ⌊(c : ℚ)⌋ := Int.floor_mono h
    _ = c := Int.floor_intCast c
  have hfl : (⌊x⌋ : ℚ) ≤ x := Int.floor_le x
  split_ifs with h1 h2 h3
  · exact hfc
  · have hlt : (⌊x⌋ : ℚ) < (c : ℚ) := by linarith
    have := Int.cast_lt.mp hlt
    omega
  · exact hfc
  · have hhalf : 1/2 ≤ x - ⌊x⌋ := le_of_not_lt h1
    have hlt : (⌊x⌋ : ℚ) < (c : ℚ) := by linarith
    have := Int.cast_lt.mp hlt
    omega

theorem le_roundHalfEven {x : ℚ} {c : ℤ} (h : (c : ℚ) ≤ x) :
    c ≤ roundHalfEven x := by
  rw [roundHalfEven_eq]
  have hfc : c ≤ ⌊x⌋ := by
    calc c = ⌊(c : ℚ)⌋ := (Int.floor_intCast c).symm
    _ ≤ ⌊x⌋ := Int.floor_mono h
  split_ifs <;> omega

theorem pyRound2_nonneg {x : ℚ} (h : 0 ≤ x) : 0 ≤ pyRound2 x := by
  rw [pyRound2]
  have h0 : (0 : ℤ) ≤ roundHalfEven (x * 100) :=
    le_roundHalfEven (by push_cast; linarith)
  have : (0 : ℚ) ≤ (roundHalfEven (x * 100) : ℚ) := by exact_mod_cast h0
  linarith

theorem pyRound2_le_hundred {x : ℚ} (h : x ≤ 100) : pyRound2 x ≤ 100 := by
  rw [pyRound2]
  have h0 : roundHalfEven (x * 100) ≤ (10000 : ℤ) :=
    roundHalfEven_le (by push_cast; linarith)
  have : (roundHalfEven (x * 100) : ℚ) ≤ 10000 := by exact_mod_cast h0
  linarith

theorem pyRound2_neg {x : ℚ} (h : x ≤ -1/100) : pyRound2 x < 0 := by
  rw [pyRound2]
  have h0 : roundHalfEven (x * 100) ≤ (-1 : ℤ) :=
    roundHalfEven_le (by push_cast; linarith)
  have : (roundHalfEven (x * 100) : ℚ) ≤ -1 := by exact_mod_cast h0
  linarith

theorem pyRound2_zero : pyRound2 0 = 0 := by
  rw [pyRound2, roundHalfEven_eq]
  norm_num

/-! Helper lemmas about the engine. -/

theorem capacity_maximum_nonneg (s : Snapshot) :
    0 ≤ (estimate_monthly_savings_capacity s).maximum :=
  pyRound2_nonneg (le_max_left 0 _)

theorem stress_multiplier_pos (s : Snapshot) :
    0 < stress_multiplier_of s := by
  rw [stress_multiplier_of]
  split_ifs
  · exact lt_of_lt_of_le (by norm_num) (le_max_left _ _)
  · norm_num

theorem base_capacity_sub_adjustment (s : Snapshot) :
    base_capacity_of s = s.income.monthly_income -
      s.expenses.monthly_total - overspending_adjustment s := by
  rw [base_capacity_of, overspending_adjustment]
  split_ifs <;> ring

theorem months_elapsed_pos (g : SavingsGoal) (now : DateTime) :
    0 < (calculate_goal_progress g now).months_elapsed :=
  lt_of_lt_of_le one_pos (le_max_left 1 _)

/-- C1.  The spec claims every division arising from zero capacity
inside `evaluate_goal_feasibility` is guarded, so the evaluation never
raises.  In fact, with all four capacity bands equal to zero (income =
expenses) and a goal whose deadline is under 3 months away with a
positive remaining amount, the Check-5 recommendation at source line
447 divides `remaining_amount` by `capacity["moderate"] = 0` and
raises `ZeroDivisionError` (modelled by `none`). -/
theorem c1_zero_capacity_feasibility_raises :
    (estimate_monthly_savings_capacity snapC1).conservative = 0 ∧
    (estimate_monthly_savings_capacity snapC1).moderate = 0 ∧
    (estimate_monthly_savings_capacity snapC1).aggressive = 0 ∧
    (estimate_monthly_savings_capacity snapC1).maximum = 0 ∧
    evaluate_goal_feasibility snapC1 goalC1 nowC1 = none := by
  refine ⟨?_, ?_, ?_, ?_, ?_⟩ <;> with_unfolding_all decide

/-- C3.  `estimate_monthly_savings_capacity` returns the four bands as
`round(max(0, base * fraction * stress_multiplier), 2)` for fractions
0.2 / 0.4 / 0.7 / 1.0, hence never negative, together with the
`stress_adjusted` and `overspending_impact` flags; on the spec scenario
(income 50000, expenses 45000, no stress, no overspending) it returns
base 5000 and bands 1000 / 2000 / 3500 / 5000. -/
theorem c3_capacity_bands (s : Snapshot) :
    ((estimate_monthly_savings_capacity s).conservative =
      pyRound2 (max 0 (base_capacity_of s * (1/5) * stress_multiplier_of s)) ∧
    (estimate_monthly_savings_capacity s).moderate =
      pyRound2 (max 0 (base_capacity_of s * (2/5) * stress_multiplier_of s)) ∧
    (estimate_monthly_savings_capacity s).aggressive =
      pyRound2 (max 0 (base_capacity_of s * (7/10) * stress_multiplier_of s)) ∧
    (estimate_monthly_savings_capacity s).maximum =
      pyRound2 (max 0 (base_capacity_of s * stress_multiplier_of s))) ∧
    (0 ≤ (estimate_monthly_savings_capacity s).conservative ∧
    0 ≤ (estimate_monthly_savings_capacity s).moderate ∧
    0 ≤ (estimate_monthly_savings_capacity s).aggressive ∧
    0 ≤ (estimate_monthly_savings_capacity s).maximum) ∧
    ((estimate_monthly_savings_capacity s).stress_adjusted =
      decide (stress_multiplier_of s < 1) ∧
    (estimate_monthly_savings_capacity s).overspending_impact =
      s.overspending.is_overspending) ∧
    estimate_monthly_savings_capacity snapC3 =
      { base_capacity := 5000, conservative := 1000, moderate := 2000
        aggressive := 3500, maximum := 5000
        stress_adjusted := false, overspending_impact := false } := by
  refine ⟨⟨rfl, rfl, rfl, rfl⟩,
    ⟨pyRound2_nonneg (le_max_left 0 _), pyRound2_nonneg (le_max_left 0 _),
     pyRound2_nonneg (le_max_left 0 _), pyRound2_nonneg (le_max_left 0 _)⟩,
    ⟨rfl, rfl⟩, ?_⟩
  simp only [estimate_monthly_savings_capacity, base_capacity_of,
    stress_multiplier_of, snapC3, quietOverspending, quietStress,
    pyRound2, roundHalfEven_eq, CapacityResult.mk.injEq]
  norm_num

/-- C4.  The spec claims `required_monthly = remaining` when a deadline
exists with `months_remaining = 0` (due now).  The Python guard
`if goal.target_date and progress.months_remaining:` is falsy for the
integer 0, so the due-now branch at source line 393 is dead code and
`required_monthly` falls back to the stated `monthly_contribution`:
for a goal due this month with 5000 remaining and a contribution of
100, the code reports 100, not 5000. -/
theorem c4_due_now_dispatch :
    (calculate_goal_progress goalC4 nowC1).months_remaining = some 0 ∧
    goalC4.target_amount - goalC4.current_amount = 5000 ∧
    goalC4.monthly_contribution = 100 ∧
    (evaluate_goal_feasibility snapC4 goalC4 nowC1).map
      FeasibilityResult.required_monthly = some 100 ∧
    ¬ (evaluate_goal_feasibility snapC4 goalC4 nowC1).map
      FeasibilityResult.required_monthly = some 5000 := by
  have h4 : (evaluate_goal_feasibility snapC4 goalC4 nowC1).map
      FeasibilityResult.required_monthly = some 100 := by
    norm_num [evaluate_goal_feasibility, calculate_goal_progress,
      requiredMonthly, estimate_monthly_savings_capacity, base_capacity_of,
      stress_multiplier_of, monthsDiff, pyDiv, pyRound2, roundHalfEven_eq,
      snapC4, goalC4, nowC1, quietOverspending, quietStress]
  refine ⟨?_, ?_, ?_, h4, fun h => ?_⟩
  · with_unfolding_all decide
  · norm_num [goalC4]
  · norm_num [goalC4]
  · rw [h4] at h
    have h100 : (100 : ℚ) = 5000 := Option.some.injEq _ _ ▸ h
    norm_num at h100

/-- C9.  Two runs of `get_savings_goals_report` on equal goal/signal
snapshots with the same captured `now` instant produce equal reports:
the embedded engine is a pure function of the snapshot and `now`, with
no other source of nondeterminism. -/
theorem c9_report_deterministic (s1 s2 : Snapshot) (n1 n2 : DateTime)
    (hs : s1 = s2) (hn : n1 = n2) :
    get_savings_goals_report s1 n1 = get_savings_goals_report s2 n2 := by
  rw [hs, hn]

/-- C9 witness: the report on a concrete one-goal snapshot equals the
report of a second run on the same snapshot. -/
theorem c9_report_deterministic_witness :
    get_savings_goals_report snapC9 nowC1 =
      get_savings_goals_report snapC9 nowC1 :=
  c9_report_deterministic snapC9 snapC9 nowC1 nowC1 rfl rfl

/-- C2 counterexample: on a zero-capacity snapshot with one
overcommitted goal due in two months, the contribution sum exceeds the
maximum band, yet `detect_goal_conflicts` does not return a conflict
list at all — the Conflict-4 feasibility pass raises
`ZeroDivisionError` (modelled by `none`), refuting both the soundness
conclusion and the never-raises clause as stated. -/
theorem c2_counterexample_detection_raises :
    (goalsC2.map (fun p => p.2.monthly_contribution)).sum >
      (estimate_monthly_savings_capacity snapC2).maximum ∧
    detect_goal_conflicts snapC2 goalsC2 nowC1 = none := by
  constructor <;> with_unfolding_all decide

/-- C2 (amended).  Whenever `detect_goal_conflicts` completes (the
per-goal feasibility pass can raise when the moderate band is zero and
a deadline is imminent, see C1) and the sum of `monthly_contribution`
over all goals exceeds the maximum capacity band, the returned list
contains a `capacity_overload` conflict of severity `high` whose
`affected_goals` lists every goal id. -/
theorem c2_capacity_overload_sound (s : Snapshot)
    (goals : List (String × SavingsGoal)) (now : DateTime)
    (l : List Conflict)
    (hdet : detect_goal_conflicts s goals now = some l)
    (hsum : (goals.map (fun p => p.2.monthly_contribution)).sum >
      (estimate_monthly_savings_capacity s).maximum) :
    ∃ c ∈ l, c.type = "capacity_overload" ∧ c.severity = "high" ∧
      c.affected_goals = AffectedGoals.ids (goals.map Prod.fst) := by
  rcases goals with _ | ⟨g0, gs⟩
  · exfalso
    have h0 : (0 : ℚ) ≤ (estimate_monthly_savings_capacity s).maximum :=
      capacity_maximum_nonneg s
    simp only [List.map_nil, List.sum_nil] at hsum
    linarith
  · simp only [detect_goal_conflicts, List.isEmpty_cons, if_false,
      Bool.false_eq_true] at hdet
    rcases Option.map_eq_some'.mp hdet with ⟨feats, hfe, hl⟩
    rw [if_pos hsum] at hl
    subst hl
    exact ⟨_, List.mem_append_left _ (List.mem_append_left _
      (List.mem_append_left _ (List.mem_singleton_self _))), rfl, rfl, rfl⟩

/-- C2 witness: two undated goals contributing 3000 each against a
maximum band of 5000; detection completes and the overload conflict is
in the returned list. -/
theorem c2_capacity_overload_sound_witness :
    ∃ c ∈ conflictsC2w, c.type = "capacity_overload" ∧
      c.severity = "high" ∧
      c.affected_goals = AffectedGoals.ids (goalsC2w.map Prod.fst) :=
  c2_capacity_overload_sound snapC2w goalsC2w nowC1 conflictsC2w
    (by with_unfolding_all decide) (by with_unfolding_all decide)

/-- C5.  If the `required_monthly` computed inside
`evaluate_goal_feasibility` exceeds the maximum capacity band, then any
returned result has `is_feasible = false` and its feasibility score
carries the 50-point Check-1 deduction (so it is at most 100 - 50). -/
theorem c5_infeasible_when_required_exceeds_maximum (s : Snapshot)
    (g : SavingsGoal) (now : DateTime) (r : FeasibilityResult)
    (hr : evaluate_goal_feasibility s g now = some r)
    (hreq : requiredMonthlyOf g now >
      (estimate_monthly_savings_capacity s).maximum) :
    r.is_feasible = false ∧ r.feasibility_score ≤ 100 - 50 := by
  rw [requiredMonthlyOf] at hreq
  simp only [evaluate_goal_feasibility] at hr
  rw [if_pos hreq, if_pos hreq, if_pos hreq, if_pos hreq] at hr
  rcases Option.map_eq_some'.mp hr with ⟨core, hcore, hfin⟩
  subst hfin
  revert hcore
  split
  · split
    · intro hcore
      rcases Option.map_eq_some'.mp hcore with ⟨q, _, hco⟩
      subst hco
      refine ⟨rfl, ?_⟩
      simp only [max_le_iff]
      refine ⟨by norm_num, ?_⟩
      split_ifs <;> omega
    · intro hcore
      have h := Option.some_inj.mp hcore
      subst h
      refine ⟨rfl, ?_⟩
      simp only [max_le_iff]
      refine ⟨by norm_num, ?_⟩
      split_ifs <;> omega
  · intro hcore
    have h := Option.some_inj.mp hcore
    subst h
    refine ⟨rfl, ?_⟩
    simp only [max_le_iff]
    refine ⟨by norm_num, ?_⟩
    split_ifs <;> omega

/-- C5 witness: an undated goal demanding 6000 per month against a
5000 maximum band is evaluated infeasible with score at most 50. -/
theorem c5_infeasible_witness :
    (evaluate_goal_feasibility snapC5 goalC5 nowC1).elim False
      (fun r => r.is_feasible = false ∧ r.feasibility_score ≤ 100 - 50) := by
  have hs : (evaluate_goal_feasibility snapC5 goalC5 nowC1).isSome = true := by
    with_unfolding_all decide
  obtain ⟨r, hr⟩ := Option.isSome_iff_exists.mp hs
  rw [hr]
  exact c5_infeasible_when_required_exceeds_maximum snapC5 goalC5 nowC1 r hr
    (by with_unfolding_all decide)

/-- C6 counterexample: for a goal created January 2024 with a March
2024 target evaluated in October 2026, `calculate_goal_progress`
returns `time_elapsed_percentage = 1650`, outside [0, 100] — the
months-elapsed over total-months ratio is never clamped. -/
theorem c6_counterexample_time_elapsed_above_100 :
    (calculate_goal_progress goalC6bad nowC6).time_elapsed_percentage
      > 100 := by
  with_unfolding_all decide

/-- C6 (amended).  `time_elapsed_percentage` is 0 when the goal has no
`target_date`, is always nonnegative, and lies in [0, 100] provided the
current month does not lie past the target month; once `now` passes the
deadline it can exceed 100 (see the counterexample). -/
theorem c6_time_elapsed_bounds (g : SavingsGoal) (now : DateTime) :
    (g.target_date = none →
      (calculate_goal_progress g now).time_elapsed_percentage = 0) ∧
    0 ≤ (calculate_goal_progress g now).time_elapsed_percentage ∧
    (∀ td, g.target_date = some td → 0 ≤ monthsDiff td now →
      (calculate_goal_progress g now).time_elapsed_percentage ≤ 100) := by
  rcases hta : g.target_date with _ | td0
  · simp only [calculate_goal_progress, hta]
    refine ⟨fun _ => pyRound2_zero, ?_, fun td htd => by simp at htd⟩
    rw [pyRound2_zero]
  · simp only [calculate_goal_progress, hta]
    have htm : (1 : ℤ) ⊔ monthsDiff td0 g.created_date > 0 :=
      lt_of_lt_of_le one_pos (le_max_left 1 _)
    rw [if_pos htm]
    have htmq : (0 : ℚ) < (((1 : ℤ) ⊔ monthsDiff td0 g.created_date : ℤ) : ℚ) := by
      exact_mod_cast htm
    have hmeq : (0 : ℚ) < (((1 : ℤ) ⊔ monthsDiff now g.created_date : ℤ) : ℚ) := by
      have : (1 : ℤ) ⊔ monthsDiff now g.created_date > 0 :=
        lt_of_lt_of_le one_pos (le_max_left 1 _)
      exact_mod_cast this
    refine ⟨fun h => by simp at h, ?_, ?_⟩
    · exact pyRound2_nonneg (by positivity)
    · intro td htd hmd
      cases Option.some_inj.mp htd
      have hle : (1 : ℤ) ⊔ monthsDiff now g.created_date ≤
          (1 : ℤ) ⊔ monthsDiff td0 g.created_date := by
        have : monthsDiff now g.created_date ≤ monthsDiff td0 g.created_date := by
          simp only [monthsDiff] at hmd ⊢
          omega
        omega
      have hleq : (((1 : ℤ) ⊔ monthsDiff now g.created_date : ℤ) : ℚ) ≤
          (((1 : ℤ) ⊔ monthsDiff td0 g.created_date : ℤ) : ℚ) := by
        exact_mod_cast hle
      refine pyRound2_le_hundred ?_
      have hdiv : (((1 : ℤ) ⊔ monthsDiff now g.created_date : ℤ) : ℚ) /
          (((1 : ℤ) ⊔ monthsDiff td0 g.created_date : ℤ) : ℚ) ≤ 1 :=
        (div_le_one htmq).mpr hleq
      nlinarith

/-- C6 witness: a goal created January 2025, due December 2025,
evaluated in June 2025, has `time_elapsed_percentage` inside [0, 100]. -/
theorem c6_time_elapsed_bounds_witness :
    0 ≤ (calculate_goal_progress goalC6w nowC1).time_elapsed_percentage ∧
    (calculate_goal_progress goalC6w nowC1).time_elapsed_percentage ≤ 100 :=
  ⟨(c6_time_elapsed_bounds goalC6w nowC1).2.1,
   (c6_time_elapsed_bounds goalC6w nowC1).2.2 ⟨2025, 12, 1184⟩ rfl
     (by decide)⟩

/-- C7.  A goal with zero historical contribution rate
(`current_amount = 0`, hence a zero predicted monthly rate) gets the
bounded sentinel `months_to_completion = 999`, a null predicted
completion date, and `success_probability ≤ 0.1`, with no unbounded
value or error. -/
theorem c7_zero_rate_prediction_bounded (s : Snapshot) (g : SavingsGoal)
    (now : DateTime) (h : g.current_amount = 0) :
    (predict_goal_completion s g now).months_to_completion = 999 ∧
    (predict_goal_completion s g now).predicted_completion_date = none ∧
    (predict_goal_completion s g now).success_probability ≤ 1/10 := by
  have hme := months_elapsed_pos g now
  simp only [predict_goal_completion]
  rw [if_pos hme, h, zero_div, zero_mul, if_neg (lt_irrefl 0)]
  refine ⟨?_, rfl, ?_⟩
  · rw [pyRound1, roundHalfEven_eq]
    norm_num
  · rw [pyRound2, roundHalfEven_eq]
    norm_num

/-- C7 witness: a concrete goal with `current_amount = 0` after five
months receives the 999 sentinel, no predicted date, and probability
0.1. -/
theorem c7_zero_rate_prediction_witness :
    (predict_goal_completion snapC7 goalC7 nowC1).months_to_completion = 999 ∧
    (predict_goal_completion snapC7 goalC7 nowC1).predicted_completion_date
      = none ∧
    (predict_goal_completion snapC7 goalC7 nowC1).success_probability ≤ 1/10 :=
  c7_zero_rate_prediction_bounded snapC7 goalC7 nowC1 rfl

theorem buildGoal_eq_some (now : DateTime) (p : String × RawGoalInfo)
    (h : numericOk p.2) :
    buildGoal now p = some (p.1, goalOfRecordSpec p.1 p.2 now) := by
  obtain ⟨q1, hq1⟩ := Option.isSome_iff_exists.mp h.1
  obtain ⟨q2, hq2⟩ := Option.isSome_iff_exists.mp h.2.1
  obtain ⟨q3, hq3⟩ := Option.isSome_iff_exists.mp h.2.2
  simp [buildGoal, goalOfRecordSpec, hq1, hq2, hq3]

theorem traverse_buildGoal_eq_some (now : DateTime)
    (records : List (String × RawGoalInfo))
    (h : ∀ p ∈ records, numericOk p.2) :
    optionTraverse (buildGoal now) records =
      some (records.map (fun p => (p.1, goalOfRecordSpec p.1 p.2 now))) := by
  induction records with
  | nil => rfl
  | cons a l ih =>
      have ha := h a (List.mem_cons_self a l)
      have hl := ih (fun p hp => h p (List.mem_cons_of_mem a hp))
      simp [optionTraverse, buildGoal_eq_some now a ha, hl]

/-- C8 counterexample: a single record whose `target_amount` does not
coerce under `float` makes `get_savings_goals` return the empty goal
set — the blanket `except` catches the `ValueError` and drops every
record, instead of coercing the one bad field to 0. -/
theorem c8_counterexample_bad_numeric_drops_all :
    get_savings_goals recsC8bad nowC1 = [] ∧ recsC8bad.length = 1 := by
  constructor
  · with_unfolding_all decide
  · rfl

/-- C8 (amended).  When every numeric field of every raw record coerces
under `float`, the goal store adapter produces exactly one
`SavingsGoal` per record with the documented defaults (missing numerics
to 0, missing priority to `medium`, missing type to `custom`, missing
dates to now); when some numeric field does not coerce, no exception
escapes but the adapter returns the empty goal set (all records
dropped), not a per-field coercion to 0. -/
theorem c8_adapter_defaults (records : List (String × RawGoalInfo))
    (now : DateTime) (h : ∀ p ∈ records, numericOk p.2) :
    get_savings_goals records now =
      records.map (fun p => (p.1, goalOfRecordSpec p.1 p.2 now)) := by
  rw [get_savings_goals, traverse_buildGoal_eq_some now records h]
  rfl

/-- C8 witness: a record with every field missing and a fully
populated record both load, with the documented defaults applied. -/
theorem c8_adapter_defaults_witness :
    get_savings_goals recsC8w nowC1 =
      recsC8w.map (fun p => (p.1, goalOfRecordSpec p.1 p.2 nowC1)) :=
  c8_adapter_defaults recsC8w nowC1 (by decide)

/-- C10 counterexample: when expenses exceed income by only 1/1000, the
claimed strictly negative `base_capacity` fails — `round(base, 2)`
returns 0, so the exposed field is 0, not negative. -/
theorem c10_counterexample_tiny_excess :
    snapC10bad.expenses.monthly_total + overspending_adjustment snapC10bad >
      snapC10bad.income.monthly_income ∧
    (estimate_monthly_savings_capacity snapC10bad).base_capacity = 0 := by
  constructor
  · norm_num [snapC10bad, overspending_adjustment, quietOverspending]
  · with_unfolding_all decide

/-- C10 (amended).  When expenses plus the overspending adjustment
exceed income by at least 0.01 (one rounding unit), the report's
`savings_capacity` section is exactly the estimator's result, its
`base_capacity` field is strictly negative (not floored), and all four
bands are floored to 0. -/
theorem c10_negative_base_exposed (s : Snapshot) (now : DateTime)
    (r : Report)
    (hex : s.income.monthly_income + 1/100 ≤
      s.expenses.monthly_total + overspending_adjustment s)
    (hrep : get_savings_goals_report s now = some r) :
    r.savings_capacity = estimate_monthly_savings_capacity s ∧
    r.savings_capacity.base_capacity < 0 ∧
    r.savings_capacity.conservative = 0 ∧
    r.savings_capacity.moderate = 0 ∧
    r.savings_capacity.aggressive = 0 ∧
    r.savings_capacity.maximum = 0 := by
  have hbase : base_capacity_of s ≤ -1/100 := by
    rw [base_capacity_sub_adjustment]
    linarith
  have hbneg : base_capacity_of s < 0 := lt_of_le_of_lt hbase (by norm_num)
  have hmult := stress_multiplier_pos s
  have hcap : r.savings_capacity = estimate_monthly_savings_capacity s := by
    simp only [get_savings_goals_report, Option.bind_eq_bind,
      Option.bind_eq_some, Option.pure_def, Option.some.injEq] at hrep
    obtain ⟨analyses, hA, insights, hI, conflicts, hC, hstruct⟩ := hrep
    subst hstruct
    rfl
  have hband : ∀ k : ℚ, 0 < k →
      pyRound2 (max 0 (base_capacity_of s * k * stress_multiplier_of s))
        = 0 := by
    intro k hk
    have hneg : base_capacity_of s * k * stress_multiplier_of s < 0 :=
      mul_neg_of_neg_of_pos (mul_neg_of_neg_of_pos hbneg hk) hmult
    rw [max_eq_left (le_of_lt hneg), pyRound2_zero]
  have hmax : pyRound2 (max 0 (base_capacity_of s * stress_multiplier_of s))
      = 0 := by
    have hneg : base_capacity_of s * stress_multiplier_of s < 0 :=
      mul_neg_of_neg_of_pos hbneg hmult
    rw [max_eq_left (le_of_lt hneg), pyRound2_zero]
  refine ⟨hcap, ?_, ?_, ?_, ?_, ?_⟩ <;> rw [hcap]
  · exact pyRound2_neg hbase
  · exact hband (1/5) (by norm_num)
  · exact hband (2/5) (by norm_num)
  · exact hband (7/10) (by norm_num)
  · exact hmax

/-- C10 witness: income 100, expenses 90, active overspending of 40
(adjustment 20), so capacity is -10; the report completes and exposes
the negative base with zeroed bands. -/
theorem c10_negative_base_exposed_witness :
    (get_savings_goals_report snapC10w nowC1).elim False (fun r =>
      r.savings_capacity.base_capacity < 0 ∧
      r.savings_capacity.maximum = 0) := by
  have hs : (get_savings_goals_report snapC10w nowC1).isSome = true := by
    with_unfolding_all decide
  obtain ⟨r, hr⟩ := Option.isSome_iff_exists.mp hs
  rw [hr]
  have h := c10_negative_base_exposed snapC10w nowC1 r
    (by norm_num [snapC10w, overspending_adjustment]) hr
  exact ⟨h.2.1, h.2.2.2.2.2⟩

end MonetIQ
